import Mathlib

/-!
Verification of the pattern-matching core of the rust_string_to_num crate.

The development shallowly embeds `src/pattern.rs`: the `Separator`,
`NumberType`, `NumberCultureSettings`, `RegexPattern`, `ParsingPattern`,
`CulturePattern` and `NumberPatterns` types, the `Default` registry with its
thirteen concrete patterns, and the lookup functions.  The concrete regular
expressions of the registry are embedded as terms of a small regex language
`Rx` equipped with an executable Brzozowski-derivative matcher `rmatch` and a
semantic matching relation `Matches`, proved equivalent.
-/

/-- Modelled from the spec: the `Culture` enumeration declared at the crate
root (lib.rs is not under src/): English, French, Italian. -/
inductive Culture where
  | English : Culture
  | French : Culture
  | Italian : Culture
deriving DecidableEq, Repr

/-- Modelled from the spec: the error type `ConversionError` (errors.rs is not
under src/).  The spec names SeparatorNotFound (a candidate separator string
that is none of the three glyphs), NoMatchError and MalformedNumber; the
payloads carried by the latter two are irrelevant here and omitted. -/
inductive ConversionError where
  | SeparatorNotFound : ConversionError
  | NoMatchError : ConversionError
  | MalformedNumber : ConversionError
deriving DecidableEq, Repr

/-- Whether the number is Whole (int) or Decimal (float): `NumberType` in
src/pattern.rs. -/
inductive NumberType where
  | WHOLE : NumberType
  | DECIMAL : NumberType
deriving DecidableEq, Repr

/-- Common separators (thousand or decimal): `Separator` in src/pattern.rs. -/
inductive Separator where
  | SPACE : Separator
  | DOT : Separator
  | COMMA : Separator
deriving DecidableEq, Repr

/-- `impl From<Separator> for &str` in src/pattern.rs. -/
def Separator.to_str : Separator → String
  | Separator.COMMA => ","
  | Separator.DOT => "."
  | Separator.SPACE => " "

/-- `impl TryFrom<&str> for Separator` in src/pattern.rs: a Rust `match` on the
string value, in source order; `Except.error` embeds the `Err` case. -/
def Separator.try_from (value : String) : Except ConversionError Separator :=
  if value = "," then Except.ok Separator.COMMA
  else if value = "." then Except.ok Separator.DOT
  else if value = " " then Except.ok Separator.SPACE
  else Except.error ConversionError.SeparatorNotFound

/-- `NumberCultureSettings` in src/pattern.rs: the current thousand and decimal
separator, both stored as plain strings. -/
structure NumberCultureSettings where
  thousand_separator : String
  decimal_separator : String
deriving DecidableEq, Repr

/-- `NumberCultureSettings::new` in src/pattern.rs.  The source has a
`TODO : Check separator here` comment and performs no validation: the two
arguments are stored unchanged. -/
def NumberCultureSettings.new (thousand_separator : String)
    (decimal_separator : String) : NumberCultureSettings :=
  { thousand_separator := thousand_separator,
    decimal_separator := decimal_separator }

/-- `NumberCultureSettings::english_culture` in src/pattern.rs. -/
def NumberCultureSettings.english_culture : NumberCultureSettings :=
  NumberCultureSettings.new Separator.COMMA.to_str Separator.DOT.to_str

/-- `NumberCultureSettings::french_culture` in src/pattern.rs. -/
def NumberCultureSettings.french_culture : NumberCultureSettings :=
  NumberCultureSettings.new Separator.SPACE.to_str Separator.COMMA.to_str

/-- `NumberCultureSettings::italian_culture` in src/pattern.rs. -/
def NumberCultureSettings.italian_culture : NumberCultureSettings :=
  NumberCultureSettings.new Separator.DOT.to_str Separator.COMMA.to_str

/-- `NumberCultureSettings::to_thousand_separator` in src/pattern.rs calls
`try_into().unwrap()`; `unwrap` panics exactly when the conversion fails, so
the embedding returns `none` for the panic case. -/
def NumberCultureSettings.to_thousand_separator
    (s : NumberCultureSettings) : Option Separator :=
  (Separator.try_from s.thousand_separator).toOption

/-- `NumberCultureSettings::to_decimal_separator` in src/pattern.rs, with the
same `unwrap`-as-`none` embedding. -/
def NumberCultureSettings.to_decimal_separator
    (s : NumberCultureSettings) : Option Separator :=
  (Separator.try_from s.decimal_separator).toOption

/-- `impl From<(&str, &str)> for NumberCultureSettings` in src/pattern.rs. -/
def NumberCultureSettings.from_pair (val : String × String) :
    NumberCultureSettings :=
  NumberCultureSettings.new val.1 val.2

/-- `impl From<Culture> for NumberCultureSettings` in src/pattern.rs. -/
def NumberCultureSettings.from_culture (culture : Culture) :
    NumberCultureSettings :=
  match culture with
  | Culture.English => NumberCultureSettings.english_culture
  | Culture.French => NumberCultureSettings.french_culture
  | Culture.Italian => NumberCultureSettings.italian_culture


/-!
A small regex language sufficient for the thirteen concrete regular
expressions of the default registry.  `Rx.chr p` is a character class given by
its characteristic predicate; `Rx.star` is Kleene star.  `rmatch` is the
executable Brzozowski-derivative full-string matcher, `Matches` the semantic
matching relation; `rmatch_iff_matches` proves them equivalent.
-/

/-- Abstract syntax of the regular expressions appearing in the registry. -/
inductive Rx where
  | fail : Rx
  | eps : Rx
  | chr (p : Char → Bool) : Rx
  | alt (a b : Rx) : Rx
  | seq (a b : Rx) : Rx
  | star (a : Rx) : Rx

/-- `r?` as it appears in the source regexes. -/
def Rx.opt (r : Rx) : Rx := Rx.alt Rx.eps r

/-- `r+` (for `+` and for the equivalent bound `r{1,}`). -/
def Rx.plus (r : Rx) : Rx := Rx.seq r (Rx.star r)

/-- `r{3}`: exactly three repetitions. -/
def Rx.rep3 (r : Rx) : Rx := Rx.seq r (Rx.seq r r)

/-- Does the regex accept the empty string. -/
def nullable : Rx → Bool
  | Rx.fail => false
  | Rx.eps => true
  | Rx.chr _ => false
  | Rx.alt a b => nullable a || nullable b
  | Rx.seq a b => nullable a && nullable b
  | Rx.star _ => true

/-- Brzozowski derivative of a regex by a character. -/
def rderiv : Rx → Char → Rx
  | Rx.fail, _ => Rx.fail
  | Rx.eps, _ => Rx.fail
  | Rx.chr p, c => if p c then Rx.eps else Rx.fail
  | Rx.alt a b, c => Rx.alt (rderiv a c) (rderiv b c)
  | Rx.seq a b, c =>
      if nullable a then Rx.alt (Rx.seq (rderiv a c) b) (rderiv b c)
      else Rx.seq (rderiv a c) b
  | Rx.star a, c => Rx.seq (rderiv a c) (Rx.star a)

/-- Executable full-string matcher by repeated derivation. -/
def rmatch (r : Rx) : List Char → Bool
  | [] => nullable r
  | c :: s => rmatch (rderiv r c) s

/-- Semantic matching relation: `Matches r s` holds when the whole string `s`
belongs to the language of `r`. -/
inductive Matches : Rx → List Char → Prop where
  | eps : Matches Rx.eps []
  | chr {p : Char → Bool} {c : Char} : p c = true → Matches (Rx.chr p) [c]
  | altL {a b : Rx} {s : List Char} : Matches a s → Matches (Rx.alt a b) s
  | altR {a b : Rx} {s : List Char} : Matches b s → Matches (Rx.alt a b) s
  | seq {a b : Rx} {s t : List Char} :
      Matches a s → Matches b t → Matches (Rx.seq a b) (s ++ t)
  | starNil {a : Rx} : Matches (Rx.star a) []
  | starCons {a : Rx} {s t : List Char} :
      Matches a s → Matches (Rx.star a) t → Matches (Rx.star a) (s ++ t)

theorem matches_fail_inv {s : List Char} (h : Matches Rx.fail s) : False := by
  cases h

theorem matches_eps_inv {s : List Char} (h : Matches Rx.eps s) : s = [] := by
  cases h; rfl

theorem matches_chr_inv {p : Char → Bool} {s : List Char}
    (h : Matches (Rx.chr p) s) : ∃ c, s = [c] ∧ p c = true := by
  cases h with
  | chr hp => exact ⟨_, rfl, hp⟩

theorem matches_alt_inv {a b : Rx} {s : List Char}
    (h : Matches (Rx.alt a b) s) : Matches a s ∨ Matches b s := by
  cases h with
  | altL h => exact Or.inl h
  | altR h => exact Or.inr h

theorem matches_seq_inv {a b : Rx} {s : List Char}
    (h : Matches (Rx.seq a b) s) :
    ∃ u v, s = u ++ v ∧ Matches a u ∧ Matches b v := by
  cases h with
  | seq h1 h2 => exact ⟨_, _, rfl, h1, h2⟩

theorem matches_star_inv {a : Rx} {w : List Char} (h : Matches (Rx.star a) w) :
    w = [] ∨ ∃ u v, u ≠ [] ∧ w = u ++ v ∧ Matches a u ∧ Matches (Rx.star a) v := by
  generalize hr : Rx.star a = r at h
  induction h with
  | eps => cases hr
  | chr _ => cases hr
  | altL _ _ => cases hr
  | altR _ _ => cases hr
  | seq _ _ _ _ => cases hr
  | starNil => exact Or.inl rfl
  | @starCons a' s t h1 h2 ih1 ih2 =>
      injection hr with ha
      subst ha
      cases s with
      | nil =>
          rcases ih2 rfl with rfl | ⟨u, v, hu, rfl, hmu, hmv⟩
          · exact Or.inl rfl
          · exact Or.inr ⟨u, v, hu, rfl, hmu, hmv⟩
      | cons c s' =>
          exact Or.inr ⟨c :: s', t, by simp, rfl, h1, h2⟩

theorem matches_star_chunks {a : Rx} {w : List Char}
    (h : Matches (Rx.star a) w) :
    ∃ ls : List (List Char), w = ls.flatten ∧ ∀ x ∈ ls, Matches a x := by
  generalize hr : Rx.star a = r at h
  induction h with
  | eps => cases hr
  | chr _ => cases hr
  | altL _ _ => cases hr
  | altR _ _ => cases hr
  | seq _ _ _ _ => cases hr
  | starNil => exact ⟨[], rfl, by intro x hx; cases hx⟩
  | @starCons a' s t h1 h2 ih1 ih2 =>
      injection hr with ha
      subst ha
      obtain ⟨ls, rfl, hls⟩ := ih2 rfl
      refine ⟨s :: ls, by simp, ?_⟩
      intro x hx
      rcases List.mem_cons.mp hx with rfl | hx
      · exact h1
      · exact hls x hx

theorem matches_nil_nullable {r : Rx} {s : List Char}
    (h : Matches r s) : s = [] → nullable r = true := by
  induction h with
  | eps => intro _; rfl
  | chr _ => intro hc; cases hc
  | altL _ ih => intro hs; simp [nullable, ih hs]
  | altR _ ih => intro hs; simp [nullable, ih hs]
  | seq _ _ ih1 ih2 =>
      intro hs
      rcases List.append_eq_nil.mp hs with ⟨e1, e2⟩
      simp [nullable, ih1 e1, ih2 e2]
  | starNil => intro _; rfl
  | starCons _ _ _ _ => intro _; rfl

theorem nullable_matches {r : Rx} (h : nullable r = true) : Matches r [] := by
  induction r with
  | fail => cases h
  | eps => exact Matches.eps
  | chr p => cases h
  | alt a b iha ihb =>
      rw [nullable, Bool.or_eq_true] at h
      rcases h with h | h
      · exact Matches.altL (iha h)
      · exact Matches.altR (ihb h)
  | seq a b iha ihb =>
      rw [nullable, Bool.and_eq_true] at h
      exact (List.nil_append ([] : List Char)) ▸ Matches.seq (iha h.1) (ihb h.2)
  | star a _ => exact Matches.starNil

theorem rderiv_sound {r : Rx} {c : Char} {s : List Char}
    (h : Matches (rderiv r c) s) : Matches r (c :: s) := by
  induction r generalizing s with
  | fail => simp only [rderiv] at h; cases h
  | eps => simp only [rderiv] at h; cases h
  | chr p =>
      by_cases hp : p c = true
      · rw [rderiv, if_pos hp] at h
        rw [matches_eps_inv h]
        exact Matches.chr hp
      · rw [rderiv, if_neg hp] at h
        cases h
  | alt a b iha ihb =>
      simp only [rderiv] at h
      rcases matches_alt_inv h with h | h
      · exact Matches.altL (iha h)
      · exact Matches.altR (ihb h)
  | seq a b iha ihb =>
      by_cases hn : nullable a = true
      · rw [rderiv, if_pos hn] at h
        rcases matches_alt_inv h with h | h
        · obtain ⟨u, v, rfl, h1, h2⟩ := matches_seq_inv h
          exact Matches.seq (iha h1) h2
        · exact (List.nil_append (c :: s)) ▸
            Matches.seq (nullable_matches hn) (ihb h)
      · rw [rderiv, if_neg hn] at h
        obtain ⟨u, v, rfl, h1, h2⟩ := matches_seq_inv h
        exact Matches.seq (iha h1) h2
  | star a iha =>
      simp only [rderiv] at h
      obtain ⟨u, v, rfl, h1, h2⟩ := matches_seq_inv h
      exact Matches.starCons (iha h1) h2

theorem rderiv_complete {r : Rx} {c : Char} {s : List Char}
    (h : Matches r (c :: s)) : Matches (rderiv r c) s := by
  induction r generalizing s with
  | fail => cases h
  | eps => cases matches_eps_inv h
  | chr p =>
      obtain ⟨d, hd, hp⟩ := matches_chr_inv h
      have hcd : c = d ∧ s = [] := by
        constructor
        · exact ((List.cons.injEq _ _ _ _).mp hd.symm).1.symm
        · exact ((List.cons.injEq _ _ _ _).mp hd.symm).2.symm
      obtain ⟨rfl, rfl⟩ := hcd
      rw [rderiv, if_pos hp]
      exact Matches.eps
  | alt a b iha ihb =>
      simp only [rderiv]
      rcases matches_alt_inv h with h | h
      · exact Matches.altL (iha h)
      · exact Matches.altR (ihb h)
  | seq a b iha ihb =>
      obtain ⟨u, v, huv, h1, h2⟩ := matches_seq_inv h
      cases u with
      | nil =>
          have hn : nullable a = true := matches_nil_nullable h1 rfl
          rw [rderiv, if_pos hn]
          rw [List.nil_append] at huv
          exact Matches.altR (ihb (huv ▸ h2))
      | cons c1 u' =>
          rw [List.cons_append] at huv
          have hcd : c = c1 ∧ s = u' ++ v := by
            constructor
            · exact ((List.cons.injEq _ _ _ _).mp huv).1
            · exact ((List.cons.injEq _ _ _ _).mp huv).2
          obtain ⟨rfl, rfl⟩ := hcd
          have hstep : Matches (Rx.seq (rderiv a c) b) (u' ++ v) :=
            Matches.seq (iha h1) h2
          by_cases hn : nullable a = true
          · rw [rderiv, if_pos hn]; exact Matches.altL hstep
          · rw [rderiv, if_neg hn]; exact hstep
  | star a iha =>
      rcases matches_star_inv h with hnil | ⟨u, v, hu, huv, h1, h2⟩
      · cases hnil
      · cases u with
        | nil => exact absurd rfl hu
        | cons c1 u' =>
            rw [List.cons_append] at huv
            have hcd : c = c1 ∧ s = u' ++ v := by
              constructor
              · exact ((List.cons.injEq _ _ _ _).mp huv).1
              · exact ((List.cons.injEq _ _ _ _).mp huv).2
            obtain ⟨rfl, rfl⟩ := hcd
            simp only [rderiv]
            exact Matches.seq (iha h1) h2

theorem rmatch_iff_matches : ∀ (s : List Char) (r : Rx),
    rmatch r s = true ↔ Matches r s := by
  intro s
  induction s with
  | nil =>
      intro r
      simp only [rmatch]
      exact ⟨nullable_matches, fun h => matches_nil_nullable h rfl⟩
  | cons c t ih =>
      intro r
      simp only [rmatch]
      exact ⟨fun h => rderiv_sound ((ih (rderiv r c)).mp h),
        fun h => (ih (rderiv r c)).mpr (rderiv_complete h)⟩

/-!
Character classes of the source regexes.  Rust `\d` and `\s` match Unicode
digit and whitespace classes; over the ASCII inputs considered throughout this
development they agree with `Char.isDigit` and `Char.isWhitespace`, which are
used here.  Note that the class written `[\\,]` in the source contains the
backslash character as well as the comma: inside a character class `\\` is an
escaped backslash, so the class has two members.
-/

/-- The class `[0-9]` (also used for `\d`). -/
def digitChar (c : Char) : Bool := c.isDigit

/-- The class `[\-\+]`. -/
def signChar (c : Char) : Bool := c == '-' || c == '+'

/-- The class `[\\,]`: an escaped backslash or a comma. -/
def backslashOrComma (c : Char) : Bool := c == '\\' || c == ','

/-- The literal `\.` (and the class `[\.]`). -/
def dotChar (c : Char) : Bool := c == '.'

/-- The class `[\s]`. -/
def spaceChar (c : Char) : Bool := c.isWhitespace

/-- The fragment `[\-\+]?`, shared by all thirteen registry regexes. -/
def optSign : Rx := Rx.opt (Rx.chr signChar)

/-- The fragment `[0-9]+` (and the equivalent `[0-9]{1,}`). -/
def digits1 : Rx := Rx.plus (Rx.chr digitChar)

/-- The fragment `[0-9]*`. -/
def digits0 : Rx := Rx.star (Rx.chr digitChar)

/-- The fragment `([sep][0-9]{3})+` of the thousand-grouping regexes, for a
separator class `sc`. -/
def thousandGroups (sc : Char → Bool) : Rx :=
  Rx.plus (Rx.seq (Rx.chr sc) (Rx.rep3 (Rx.chr digitChar)))

/-- `RegexPattern` in src/pattern.rs: the three stored regexes.  `pre` embeds
the source field named after the anchor `^` it always holds (its Rust name is
a reserved word here); `content` is embedded as an `Rx` term.  `is_match`
concatenates the three parts and searches; since every registry pattern has
`pre = "^"` and `suffix = "$"`, a search hit of the assembled regex is exactly
a full-string match of `content`, which is what the embedding computes. -/
structure RegexPattern where
  pre : String
  content : Rx
  suffix : String

/-- `RegexPattern::is_match` in src/pattern.rs: the assembled anchored regex
`^content$` accepts `text` exactly when `content` matches all of `text`. -/
def RegexPattern.is_match (r : RegexPattern) (text : String) : Bool :=
  rmatch r.content text.data

/-- `ParsingPattern` in src/pattern.rs. -/
structure ParsingPattern where
  name : String
  culture_settings : Option NumberCultureSettings
  regex : RegexPattern
  number_type : NumberType
  additional_pattern : Option String

/-- `ParsingPattern::get_regex` in src/pattern.rs. -/
def ParsingPattern.get_regex (p : ParsingPattern) : RegexPattern := p.regex

/-- `ParsingPattern::get_number_type` in src/pattern.rs. -/
def ParsingPattern.get_number_type (p : ParsingPattern) : NumberType :=
  p.number_type

/-- `CulturePattern` in src/pattern.rs: a named group of patterns serving one
or more cultures. -/
structure CulturePattern where
  name : String
  value : List Culture
  patterns : List ParsingPattern

/-- `CulturePattern::get_name` in src/pattern.rs. -/
def CulturePattern.get_name (c : CulturePattern) : String := c.name

/-- `CulturePattern::get_cultures` in src/pattern.rs. -/
def CulturePattern.get_cultures (c : CulturePattern) : List Culture := c.value

/-- `CulturePattern::get_patterns` in src/pattern.rs. -/
def CulturePattern.get_patterns (c : CulturePattern) : List ParsingPattern :=
  c.patterns

/-- `NumberPatterns` in src/pattern.rs. -/
structure NumberPatterns where
  common_pattern : List ParsingPattern
  culture_pattern : List CulturePattern
  math_pattern : List ParsingPattern

/-- `NumberPatterns::get_all_culture_pattern` in src/pattern.rs. -/
def NumberPatterns.get_all_culture_pattern (np : NumberPatterns) :
    List CulturePattern :=
  np.culture_pattern

/-- `NumberPatterns::get_culture_pattern` in src/pattern.rs: the first
registered group whose culture list contains the requested culture. -/
def NumberPatterns.get_culture_pattern (np : NumberPatterns)
    (culture : Culture) : Option CulturePattern :=
  np.get_all_culture_pattern.find? fun c =>
    c.get_cultures.any fun sub_culture => sub_culture == culture

/-- `NumberPatterns::get_common_pattern` in src/pattern.rs. -/
def NumberPatterns.get_common_pattern (np : NumberPatterns) :
    List ParsingPattern :=
  np.common_pattern

/-- `NumberPatterns::get_math_pattern` in src/pattern.rs. -/
def NumberPatterns.get_math_pattern (np : NumberPatterns) :
    List ParsingPattern :=
  np.math_pattern

/-!
The thirteen patterns of `impl Default for NumberPatterns` in src/pattern.rs,
one definition per pattern, named after the `name` field of each.  Each
definition carries the original content regex in a comment.
-/

/-- Common pattern, content `[\-\+]?\d+([0-9]{3})*`. -/
def Common_Simple_Whole : ParsingPattern :=
  { name := "Common_Simple_Whole"
    number_type := NumberType.WHOLE
    culture_settings := none
    additional_pattern := none
    regex :=
      { pre := "^"
        content := Rx.seq optSign (Rx.seq digits1
          (Rx.star (Rx.rep3 (Rx.chr digitChar))))
        suffix := "$" } }

/-- French pattern, content `[\-\+]?[0-9]+[\\,][0-9]{1,}`. -/
def FR_Decimal_Simple : ParsingPattern :=
  { name := "FR_Decimal_Simple"
    number_type := NumberType.DECIMAL
    culture_settings := some NumberCultureSettings.french_culture
    additional_pattern := none
    regex :=
      { pre := "^"
        content := Rx.seq optSign (Rx.seq digits1
          (Rx.seq (Rx.chr backslashOrComma) digits1))
        suffix := "$" } }

/-- French pattern, content `[\-\+]?[\\,][0-9]+`. -/
def FR_Decimal_Without_Whole_Part : ParsingPattern :=
  { name := "FR_Decimal_Without_Whole_Part"
    number_type := NumberType.DECIMAL
    culture_settings := some NumberCultureSettings.french_culture
    additional_pattern := none
    regex :=
      { pre := "^"
        content := Rx.seq optSign (Rx.seq (Rx.chr backslashOrComma) digits1)
        suffix := "$" } }

/-- French pattern, content `[\-\+]?[0-9]+([\s][0-9]{3})+`. -/
def FR_Thousand_Separator : ParsingPattern :=
  { name := "FR_Thousand_Separator"
    number_type := NumberType.WHOLE
    culture_settings := some NumberCultureSettings.french_culture
    additional_pattern := none
    regex :=
      { pre := "^"
        content := Rx.seq optSign (Rx.seq digits1 (thousandGroups spaceChar))
        suffix := "$" } }

/-- French pattern, content `[\-\+]?[0-9]+([\s][0-9]{3})+[\\,][0-9]*`. -/
def FR_Thousand_Separator_Decimal : ParsingPattern :=
  { name := "FR_Thousand_Separator_Decimal"
    number_type := NumberType.DECIMAL
    culture_settings := some NumberCultureSettings.french_culture
    additional_pattern := none
    regex :=
      { pre := "^"
        content := Rx.seq optSign (Rx.seq digits1
          (Rx.seq (thousandGroups spaceChar)
            (Rx.seq (Rx.chr backslashOrComma) digits0)))
        suffix := "$" } }

/-- English pattern, content `[\-\+]?[0-9]+\.[0-9]{1,}`. -/
def EN_Decimal_Simple : ParsingPattern :=
  { name := "EN_Decimal_Simple"
    number_type := NumberType.DECIMAL
    culture_settings := some NumberCultureSettings.english_culture
    additional_pattern := none
    regex :=
      { pre := "^"
        content := Rx.seq optSign (Rx.seq digits1
          (Rx.seq (Rx.chr dotChar) digits1))
        suffix := "$" } }

/-- English pattern, content `[\-\+]?[\.][0-9]+`. -/
def EN_Decimal_Without_Whole_Part : ParsingPattern :=
  { name := "EN_Decimal_Without_Whole_Part"
    number_type := NumberType.DECIMAL
    culture_settings := some NumberCultureSettings.english_culture
    additional_pattern := none
    regex :=
      { pre := "^"
        content := Rx.seq optSign (Rx.seq (Rx.chr dotChar) digits1)
        suffix := "$" } }

/-- English pattern, content `[\-\+]?[0-9]+([\\,][0-9]{3})+`. -/
def EN_Thousand_Separator : ParsingPattern :=
  { name := "EN_Thousand_Separator"
    number_type := NumberType.WHOLE
    culture_settings := some NumberCultureSettings.english_culture
    additional_pattern := none
    regex :=
      { pre := "^"
        content := Rx.seq optSign
          (Rx.seq digits1 (thousandGroups backslashOrComma))
        suffix := "$" } }

/-- English pattern, content `[\-\+]?[0-9]+([\\,][0-9]{3})+\.[0-9]*`. -/
def EN_Thousand_Separator_Decimal : ParsingPattern :=
  { name := "EN_Thousand_Separator_Decimal"
    number_type := NumberType.DECIMAL
    culture_settings := some NumberCultureSettings.english_culture
    additional_pattern := none
    regex :=
      { pre := "^"
        content := Rx.seq optSign (Rx.seq digits1
          (Rx.seq (thousandGroups backslashOrComma)
            (Rx.seq (Rx.chr dotChar) digits0)))
        suffix := "$" } }

/-- Italian pattern, content `[\-\+]?[0-9]+[\\,][0-9]{1,}`. -/
def IT_Decimal_Simple : ParsingPattern :=
  { name := "IT_Decimal_Simple"
    number_type := NumberType.DECIMAL
    culture_settings := some NumberCultureSettings.italian_culture
    additional_pattern := none
    regex :=
      { pre := "^"
        content := Rx.seq optSign (Rx.seq digits1
          (Rx.seq (Rx.chr backslashOrComma) digits1))
        suffix := "$" } }

/-- Italian pattern, content `[\-\+]?[\\,][0-9]+`. -/
def IT_Decimal_Without_Whole_Part : ParsingPattern :=
  { name := "IT_Decimal_Without_Whole_Part"
    number_type := NumberType.DECIMAL
    culture_settings := some NumberCultureSettings.italian_culture
    additional_pattern := none
    regex :=
      { pre := "^"
        content := Rx.seq optSign (Rx.seq (Rx.chr backslashOrComma) digits1)
        suffix := "$" } }

/-- Italian pattern, content `[\-\+]?[0-9]+([\.][0-9]{3})+`. -/
def IT_Thousand_Separator : ParsingPattern :=
  { name := "IT_Thousand_Separator"
    number_type := NumberType.WHOLE
    culture_settings := some NumberCultureSettings.italian_culture
    additional_pattern := none
    regex :=
      { pre := "^"
        content := Rx.seq optSign (Rx.seq digits1 (thousandGroups dotChar))
        suffix := "$" } }

/-- Italian pattern, content `[\-\+]?[0-9]+([\.][0-9]{3})+[\\,][0-9]*`. -/
def IT_Thousand_Separator_Decimal : ParsingPattern :=
  { name := "IT_Thousand_Separator_Decimal"
    number_type := NumberType.DECIMAL
    culture_settings := some NumberCultureSettings.italian_culture
    additional_pattern := none
    regex :=
      { pre := "^"
        content := Rx.seq optSign (Rx.seq digits1
          (Rx.seq (thousandGroups dotChar)
            (Rx.seq (Rx.chr backslashOrComma) digits0)))
        suffix := "$" } }

/-- The `"fr"` group of `impl Default for NumberPatterns`. -/
def frCulturePattern : CulturePattern :=
  { name := "fr"
    value := [Culture.French]
    patterns := [FR_Decimal_Simple, FR_Decimal_Without_Whole_Part,
      FR_Thousand_Separator, FR_Thousand_Separator_Decimal] }

/-- The `"en"` group of `impl Default for NumberPatterns`. -/
def enCulturePattern : CulturePattern :=
  { name := "en"
    value := [Culture.English]
    patterns := [EN_Decimal_Simple, EN_Decimal_Without_Whole_Part,
      EN_Thousand_Separator, EN_Thousand_Separator_Decimal] }

/-- The `"it"` group of `impl Default for NumberPatterns`. -/
def itCulturePattern : CulturePattern :=
  { name := "it"
    value := [Culture.Italian]
    patterns := [IT_Decimal_Simple, IT_Decimal_Without_Whole_Part,
      IT_Thousand_Separator, IT_Thousand_Separator_Decimal] }

/-- `impl Default for NumberPatterns` in src/pattern.rs. -/
def NumberPatterns.default : NumberPatterns :=
  { common_pattern := [Common_Simple_Whole]
    culture_pattern := [frCulturePattern, enCulturePattern, itCulturePattern]
    math_pattern := [] }

/-- `NumberPatterns::new` in src/pattern.rs. -/
def NumberPatterns.new : NumberPatterns := NumberPatterns.default

/-- Every pattern of the default registry: the common patterns, the patterns
of every culture group, and the math patterns. -/
def defaultPatternList : List ParsingPattern :=
  NumberPatterns.default.common_pattern ++
    (NumberPatterns.default.culture_pattern.map
      CulturePattern.get_patterns).flatten ++
    NumberPatterns.default.math_pattern

/-- Modelled from the spec: the candidate list of the matching engine (spec
section 4.2, source file not under src/): the common patterns first, then the
patterns of the hinted culture group, or of every group in registration order
when no hint is given. -/
def candidate_patterns (np : NumberPatterns) (hint : Option Culture) :
    List ParsingPattern :=
  np.common_pattern ++
    match hint with
    | some c =>
        match np.get_culture_pattern c with
        | some g => g.patterns
        | none => []
    | none => (np.culture_pattern.map CulturePattern.get_patterns).flatten

/-- Modelled from the spec: `match_text` of the matching engine (spec section
4.2, source file not under src/).  Candidates are evaluated in list order and
the first pattern whose anchored matcher accepts the full input wins; `none`
models the NoMatchError result. -/
def match_text (np : NumberPatterns) (text : String) (hint : Option Culture) :
    Option ParsingPattern :=
  (candidate_patterns np hint).find? fun p => p.regex.is_match text

/-!
Language characterizations of the fragments shared by the registry regexes,
used to settle the universally quantified claims about pattern shapes.
-/

/-- The language of the fragment `[\-\+]?`: empty, a plus, or a minus. -/
def SignLang (u : List Char) : Prop := u = [] ∨ u = ['+'] ∨ u = ['-']

/-- A nonempty string of digits. -/
def AllDigits (u : List Char) : Prop := u ≠ [] ∧ ∀ c ∈ u, digitChar c = true

/-- One thousand-group: a separator character followed by exactly three
digits. -/
def Group3 (sc : Char → Bool) (g : List Char) : Prop :=
  ∃ c d1 d2 d3, g = [c, d1, d2, d3] ∧ sc c = true ∧
    digitChar d1 = true ∧ digitChar d2 = true ∧ digitChar d3 = true

/-- The trailing part `sep[0-9]*` of the thousand-decimal regexes: one
separator character then any number of digits. -/
def DecTail (sc : Char → Bool) (rest : List Char) : Prop :=
  ∃ c f, rest = c :: f ∧ sc c = true ∧ ∀ x ∈ f, digitChar x = true

/-- The decomposition forced by a thousand-grouping regex: an optional sign, a
first digit group, one or more groups of a separator followed by exactly three
digits, and a trailing part. -/
def ThousandShape (sc : Char → Bool) (tailPart : List Char → Prop)
    (s : List Char) : Prop :=
  ∃ sg d gs rest, s = sg ++ (d ++ (List.flatten gs ++ rest)) ∧ SignLang sg ∧
    AllDigits d ∧ gs ≠ [] ∧ (∀ g ∈ gs, Group3 sc g) ∧ tailPart rest

theorem optSign_lang {u : List Char} (h : Matches optSign u) : SignLang u := by
  rcases matches_alt_inv h with h | h
  · exact Or.inl (matches_eps_inv h)
  · obtain ⟨c, rfl, hc⟩ := matches_chr_inv h
    rw [signChar, Bool.or_eq_true] at hc
    rcases hc with hc | hc
    · exact Or.inr (Or.inr (by rw [eq_of_beq hc]))
    · exact Or.inr (Or.inl (by rw [eq_of_beq hc]))

theorem signLang_matches {u : List Char} (h : SignLang u) : Matches optSign u := by
  rcases h with rfl | rfl | rfl
  · exact Matches.altL Matches.eps
  · exact Matches.altR (Matches.chr (by decide))
  · exact Matches.altR (Matches.chr (by decide))

theorem star_chr_all {p : Char → Bool} {u : List Char}
    (h : Matches (Rx.star (Rx.chr p)) u) : ∀ c ∈ u, p c = true := by
  obtain ⟨ls, rfl, hls⟩ := matches_star_chunks h
  intro c hc
  obtain ⟨l, hl, hcl⟩ := List.mem_flatten.mp hc
  obtain ⟨c', rfl, hp⟩ := matches_chr_inv (hls l hl)
  obtain rfl : c = c' := by simpa using hcl
  exact hp

theorem all_chr_star {p : Char → Bool} : ∀ (u : List Char),
    (∀ c ∈ u, p c = true) → Matches (Rx.star (Rx.chr p)) u := by
  intro u
  induction u with
  | nil => intro _; exact Matches.starNil
  | cons c v ih =>
      intro h
      have hc : Matches (Rx.chr p) [c] := Matches.chr (h c (List.mem_cons_self c v))
      have hv := ih fun x hx => h x (List.mem_cons_of_mem c hx)
      have := Matches.starCons hc hv
      simpa using this

theorem digits1_lang {u : List Char} (h : Matches digits1 u) : AllDigits u := by
  obtain ⟨u1, u2, rfl, h1, h2⟩ := matches_seq_inv h
  obtain ⟨c, rfl, hc⟩ := matches_chr_inv h1
  refine ⟨by simp, ?_⟩
  intro x hx
  rcases List.mem_append.mp hx with hx | hx
  · obtain rfl : x = c := by simpa using hx
    exact hc
  · exact star_chr_all h2 x hx

theorem allDigits_matches {u : List Char} (h : AllDigits u) : Matches digits1 u := by
  obtain ⟨hne, hall⟩ := h
  cases u with
  | nil => exact absurd rfl hne
  | cons c v =>
      have hc : Matches (Rx.chr digitChar) [c] :=
        Matches.chr (hall c (List.mem_cons_self c v))
      have hv := all_chr_star v fun x hx => hall x (List.mem_cons_of_mem c hx)
      have := Matches.seq hc hv
      simpa using this

theorem rep3_chr_lang {p : Char → Bool} {u : List Char}
    (h : Matches (Rx.rep3 (Rx.chr p)) u) :
    ∃ a b c, u = [a, b, c] ∧ p a = true ∧ p b = true ∧ p c = true := by
  obtain ⟨u1, u2, rfl, h1, h2⟩ := matches_seq_inv h
  obtain ⟨u3, u4, rfl, h3, h4⟩ := matches_seq_inv h2
  obtain ⟨a, rfl, ha⟩ := matches_chr_inv h1
  obtain ⟨b, rfl, hb⟩ := matches_chr_inv h3
  obtain ⟨c, rfl, hc⟩ := matches_chr_inv h4
  exact ⟨a, b, c, rfl, ha, hb, hc⟩

theorem group3_lang {sc : Char → Bool} {u : List Char}
    (h : Matches (Rx.seq (Rx.chr sc) (Rx.rep3 (Rx.chr digitChar))) u) :
    Group3 sc u := by
  obtain ⟨u1, u2, rfl, h1, h2⟩ := matches_seq_inv h
  obtain ⟨c, rfl, hc⟩ := matches_chr_inv h1
  obtain ⟨d1, d2, d3, rfl, hd1, hd2, hd3⟩ := rep3_chr_lang h2
  exact ⟨c, d1, d2, d3, rfl, hc, hd1, hd2, hd3⟩

theorem thousandGroups_lang {sc : Char → Bool} {u : List Char}
    (h : Matches (thousandGroups sc) u) :
    ∃ gs : List (List Char), gs ≠ [] ∧ u = List.flatten gs ∧
      ∀ g ∈ gs, Group3 sc g := by
  obtain ⟨g0, w, rfl, h0, hw⟩ := matches_seq_inv h
  obtain ⟨ls, rfl, hls⟩ := matches_star_chunks hw
  refine ⟨g0 :: ls, by simp, by simp, ?_⟩
  intro g hg
  rcases List.mem_cons.mp hg with rfl | hg
  · exact group3_lang h0
  · exact group3_lang (hls g hg)

theorem starRep3_digits {u : List Char}
    (h : Matches (Rx.star (Rx.rep3 (Rx.chr digitChar))) u) :
    ∀ c ∈ u, digitChar c = true := by
  obtain ⟨ls, rfl, hls⟩ := matches_star_chunks h
  intro c hc
  obtain ⟨l, hl, hcl⟩ := List.mem_flatten.mp hc
  obtain ⟨a, b, c', rfl, ha, hb, hc'⟩ := rep3_chr_lang (hls l hl)
  rcases (by simpa using hcl : c = a ∨ c = b ∨ c = c') with rfl | rfl | rfl
  · exact ha
  · exact hb
  · exact hc'

theorem decTail_lang {sc : Char → Bool} {u : List Char}
    (h : Matches (Rx.seq (Rx.chr sc) digits0) u) : DecTail sc u := by
  obtain ⟨u1, u2, rfl, h1, h2⟩ := matches_seq_inv h
  obtain ⟨c, rfl, hc⟩ := matches_chr_inv h1
  exact ⟨c, u2, rfl, hc, star_chr_all h2⟩

theorem thousand_whole_shape {sc : Char → Bool} {w : List Char}
    (hm : Matches (Rx.seq optSign (Rx.seq digits1 (thousandGroups sc))) w) :
    ThousandShape sc (fun rest => rest = []) w := by
  obtain ⟨sg, r1, he1, hsg, h1⟩ := matches_seq_inv hm
  obtain ⟨d, u, he2, hd, h2⟩ := matches_seq_inv h1
  obtain ⟨gs, hne, he3, hgs⟩ := thousandGroups_lang h2
  refine ⟨sg, d, gs, [], ?_, optSign_lang hsg, digits1_lang hd, hne, hgs, rfl⟩
  rw [he1, he2, he3, List.append_nil]

theorem thousand_decimal_shape {sc dc : Char → Bool} {w : List Char}
    (hm : Matches (Rx.seq optSign (Rx.seq digits1
      (Rx.seq (thousandGroups sc) (Rx.seq (Rx.chr dc) digits0)))) w) :
    ThousandShape sc (DecTail dc) w := by
  obtain ⟨sg, r1, he1, hsg, h1⟩ := matches_seq_inv hm
  obtain ⟨d, r2, he2, hd, h2⟩ := matches_seq_inv h1
  obtain ⟨u, t, he3, h3, h4⟩ := matches_seq_inv h2
  obtain ⟨gs, hne, he4, hgs⟩ := thousandGroups_lang h3
  refine ⟨sg, d, gs, t, ?_, optSign_lang hsg, digits1_lang hd, hne, hgs,
    decTail_lang h4⟩
  rw [he1, he2, he3, he4]

/-- First-match characterization of `List.find?`, used for the
`get_culture_pattern` lookup. -/
theorem find?_first_spec {α : Type} (p : α → Bool) (l : List α) :
    (∀ a, l.find? p = some a → p a = true ∧ ∃ i, ∃ hi : i < l.length,
        l.get ⟨i, hi⟩ = a ∧
        ∀ j, ∀ hj : j < i, p (l.get ⟨j, Nat.lt_trans hj hi⟩) = false)
    ∧ (l.find? p = none ↔ ∀ a ∈ l, p a = false) := by
  induction l with
  | nil =>
      constructor
      · intro a h; cases h
      · simp
  | cons x xs ih =>
      by_cases hx : p x = true
      · constructor
        · intro a h
          rw [List.find?_cons_of_pos _ hx] at h
          injection h with h
          subst h
          exact ⟨hx, 0, Nat.succ_pos _, rfl,
            fun j hj => absurd hj (Nat.not_lt_zero j)⟩
        · rw [List.find?_cons_of_pos _ hx]
          constructor
          · intro h; cases h
          · intro h
            exact absurd (h x (List.mem_cons_self x xs)) (by simp [hx])
      · have hxf : p x = false := by
          cases hpx : p x
          · rfl
          · exact absurd hpx hx
        have hstep : (x :: xs).find? p = xs.find? p :=
          List.find?_cons_of_neg _ (by simp [hxf])
        constructor
        · intro a h
          rw [hstep] at h
          obtain ⟨hpa, i, hi, hget, hbefore⟩ := ih.1 a h
          refine ⟨hpa, i + 1, Nat.succ_lt_succ hi, hget, ?_⟩
          intro j hj
          cases j with
          | zero => exact hxf
          | succ j' => exact hbefore j' (Nat.lt_of_succ_lt_succ hj)
        · rw [hstep, ih.2]
          constructor
          · intro h a ha
            rcases List.mem_cons.mp ha with rfl | ha
            · exact hxf
            · exact h a ha
          · intro h a ha
            exact h a (List.mem_cons_of_mem x ha)

/-- The lookup condition of `get_culture_pattern` holds exactly when the
requested culture is a member of the culture list of the group. -/
theorem any_beq_iff_mem {l : List Culture} {c : Culture} :
    (l.any fun sub => sub == c) = true ↔ c ∈ l := by
  rw [List.any_eq_true]
  constructor
  · rintro ⟨x, hx, hbeq⟩
    rw [eq_of_beq hbeq] at hx
    exact hx
  · intro h
    exact ⟨c, h, by simp⟩

/-!
Claim theorems.
-/

/-- C1, counterexample: the claim asserts that under an English hint the text
"1.234" matches no English pattern and falls through to NoMatchError.  In the
code, `EN_Decimal_Simple` (content `[\-\+]?[0-9]+\.[0-9]{1,}`) accepts
"1.234", so the English hint resolves to a DECIMAL match, not to
NoMatchError. -/
theorem claim_C1_counterexample :
    EN_Decimal_Simple.regex.is_match "1.234" = true ∧
      (match_text NumberPatterns.default "1.234"
          (some Culture.English)).map ParsingPattern.name =
        some "EN_Decimal_Simple" :=
  ⟨by decide, rfl⟩

/-- C1, amended: an explicit culture hint for "1.234" deterministically
selects the hinted interpretation: under an Italian hint the first match is
the thousand-grouped WHOLE pattern `IT_Thousand_Separator`, and under an
English hint the first match is `EN_Decimal_Simple` with number type DECIMAL
(the English thousand-grouping patterns and the common pattern indeed reject
the dot-grouped token, but the English simple-decimal pattern accepts it, so
the parse does not fall through to NoMatchError). -/
theorem claim_C1_culture_hint_selection :
    (match_text NumberPatterns.default "1.234"
        (some Culture.Italian)).map ParsingPattern.name =
      some "IT_Thousand_Separator" ∧
    (match_text NumberPatterns.default "1.234"
        (some Culture.Italian)).map ParsingPattern.get_number_type =
      some NumberType.WHOLE ∧
    (match_text NumberPatterns.default "1.234"
        (some Culture.English)).map ParsingPattern.name =
      some "EN_Decimal_Simple" ∧
    (match_text NumberPatterns.default "1.234"
        (some Culture.English)).map ParsingPattern.get_number_type =
      some NumberType.DECIMAL ∧
    EN_Thousand_Separator.regex.is_match "1.234" = false ∧
    EN_Thousand_Separator_Decimal.regex.is_match "1.234" = false ∧
    Common_Simple_Whole.regex.is_match "1.234" = false :=
  ⟨rfl, rfl, rfl, rfl, by decide, by decide, by decide⟩

/-- C2: the mapping between the three Separator variants and the three strings
",", ".", " " is a total bijection, and conversion of any other string fails
with SeparatorNotFound. -/
theorem claim_C2_separator_bijection :
    (∀ sep : Separator, Separator.try_from sep.to_str = Except.ok sep) ∧
    (Separator.try_from "," = Except.ok Separator.COMMA ∧
      Separator.COMMA.to_str = "," ∧
      Separator.try_from "." = Except.ok Separator.DOT ∧
      Separator.DOT.to_str = "." ∧
      Separator.try_from " " = Except.ok Separator.SPACE ∧
      Separator.SPACE.to_str = " ") ∧
    (∀ s : String, s ≠ "," → s ≠ "." → s ≠ " " →
        Separator.try_from s =
          Except.error ConversionError.SeparatorNotFound) := by
  refine ⟨?_, ⟨rfl, rfl, rfl, rfl, rfl, rfl⟩, ?_⟩
  · intro sep
    cases sep <;> rfl
  · intro s h1 h2 h3
    unfold Separator.try_from
    rw [if_neg h1, if_neg h2, if_neg h3]

/-- Witness for C2 at the concrete string ";" and the concrete separator
DOT. -/
theorem claim_C2_witness :
    Separator.try_from ";" =
        Except.error ConversionError.SeparatorNotFound ∧
      Separator.try_from Separator.DOT.to_str = Except.ok Separator.DOT :=
  ⟨claim_C2_separator_bijection.2.2 ";" (by decide) (by decide) (by decide),
    claim_C2_separator_bijection.1 Separator.DOT⟩

/-- C3: the common WHOLE pattern accepts exactly the strings made of an
optional leading sign followed by one or more digits; in particular it
accepts "1000", "-42" and "+7" and rejects every string containing a space,
a dot or a comma. -/
theorem claim_C3_common_simple_whole :
    (Common_Simple_Whole.regex.is_match "1000" = true ∧
      Common_Simple_Whole.regex.is_match "-42" = true ∧
      Common_Simple_Whole.regex.is_match "+7" = true) ∧
    (∀ s : String, Common_Simple_Whole.regex.is_match s = true ↔
        ∃ sg d, s.data = sg ++ d ∧ SignLang sg ∧ AllDigits d) ∧
    (∀ s : String, (∃ c ∈ s.data, c = ' ' ∨ c = '.' ∨ c = ',') →
        Common_Simple_Whole.regex.is_match s = false) := by
  have hchar : ∀ s : String, Common_Simple_Whole.regex.is_match s = true ↔
      ∃ sg d, s.data = sg ++ d ∧ SignLang sg ∧ AllDigits d := by
    intro s
    constructor
    · intro h
      have hm : Matches (Rx.seq optSign (Rx.seq digits1
          (Rx.star (Rx.rep3 (Rx.chr digitChar))))) s.data :=
        (rmatch_iff_matches s.data _).mp h
      obtain ⟨sg, r1, he1, hsg, h1⟩ := matches_seq_inv hm
      obtain ⟨d, e, he2, hd, h2⟩ := matches_seq_inv h1
      obtain ⟨hdne, hdall⟩ := digits1_lang hd
      refine ⟨sg, d ++ e, by rw [he1, he2], optSign_lang hsg,
        fun hcon => hdne (List.append_eq_nil.mp hcon).1, ?_⟩
      intro c hc
      rcases List.mem_append.mp hc with hc | hc
      · exact hdall c hc
      · exact starRep3_digits h2 c hc
    · rintro ⟨sg, d, heq, hsg, hd⟩
      refine (rmatch_iff_matches s.data _).mpr ?_
      rw [heq]
      refine Matches.seq (signLang_matches hsg) ?_
      have := Matches.seq (allDigits_matches hd)
        (Matches.starNil (a := Rx.rep3 (Rx.chr digitChar)))
      simpa using this
  refine ⟨⟨by decide, by decide, by decide⟩, hchar, ?_⟩
  intro s hex
  cases hval : Common_Simple_Whole.regex.is_match s
  · rfl
  · exfalso
    obtain ⟨sg, d, heq, hsg, hd⟩ := (hchar s).mp hval
    obtain ⟨c, hcmem, hcval⟩ := hex
    rw [heq] at hcmem
    rcases List.mem_append.mp hcmem with hc | hc
    · rcases hsg with rfl | rfl | rfl
      · cases hc
      · obtain rfl : c = '+' := by simpa using hc
        rcases hcval with h | h | h <;> exact absurd h (by decide)
      · obtain rfl : c = '-' := by simpa using hc
        rcases hcval with h | h | h <;> exact absurd h (by decide)
    · have hdig := hd.2 c hc
      rcases hcval with rfl | rfl | rfl <;> exact absurd hdig (by decide)

/-- Witness for C3: the characterization applied at "-42", and the rejection
applied at " 1". -/
theorem claim_C3_witness :
    (∃ sg d, (String.data "-42") = sg ++ d ∧ SignLang sg ∧ AllDigits d) ∧
      Common_Simple_Whole.regex.is_match " 1" = false :=
  ⟨(claim_C3_common_simple_whole.2.1 "-42").mp (by decide),
    claim_C3_common_simple_whole.2.2 " 1" ⟨' ', by decide, Or.inl rfl⟩⟩

/-- C4: "1 000 000" matches FR_Thousand_Separator; "1 00" matches none of the
thirteen registry patterns and yields NoMatchError under every hint; and each
of the six thousand-grouping patterns forces a decomposition in which every
digit group after the first consists of a separator followed by exactly three
digits. -/
theorem claim_C4_thousand_grouping :
    FR_Thousand_Separator.regex.is_match "1 000 000" = true ∧
    (∀ p ∈ defaultPatternList, p.regex.is_match "1 00" = false) ∧
    (match_text NumberPatterns.default "1 00" none = none ∧
      match_text NumberPatterns.default "1 00" (some Culture.English) = none ∧
      match_text NumberPatterns.default "1 00" (some Culture.French) = none ∧
      match_text NumberPatterns.default "1 00" (some Culture.Italian) = none) ∧
    (∀ s : String, FR_Thousand_Separator.regex.is_match s = true →
        ThousandShape spaceChar (fun rest => rest = []) s.data) ∧
    (∀ s : String, EN_Thousand_Separator.regex.is_match s = true →
        ThousandShape backslashOrComma (fun rest => rest = []) s.data) ∧
    (∀ s : String, IT_Thousand_Separator.regex.is_match s = true →
        ThousandShape dotChar (fun rest => rest = []) s.data) ∧
    (∀ s : String, FR_Thousand_Separator_Decimal.regex.is_match s = true →
        ThousandShape spaceChar (DecTail backslashOrComma) s.data) ∧
    (∀ s : String, EN_Thousand_Separator_Decimal.regex.is_match s = true →
        ThousandShape backslashOrComma (DecTail dotChar) s.data) ∧
    (∀ s : String, IT_Thousand_Separator_Decimal.regex.is_match s = true →
        ThousandShape dotChar (DecTail backslashOrComma) s.data) :=
  ⟨by decide, by decide, ⟨rfl, rfl, rfl, rfl⟩,
    fun s h => thousand_whole_shape ((rmatch_iff_matches s.data _).mp h),
    fun s h => thousand_whole_shape ((rmatch_iff_matches s.data _).mp h),
    fun s h => thousand_whole_shape ((rmatch_iff_matches s.data _).mp h),
    fun s h => thousand_decimal_shape ((rmatch_iff_matches s.data _).mp h),
    fun s h => thousand_decimal_shape ((rmatch_iff_matches s.data _).mp h),
    fun s h => thousand_decimal_shape ((rmatch_iff_matches s.data _).mp h)⟩

/-- Witness for C4: the shape implication applied at "1 000" and the
no-match part applied at the common pattern. -/
theorem claim_C4_witness :
    ThousandShape spaceChar (fun rest => rest = []) (String.data "1 000") ∧
      Common_Simple_Whole.regex.is_match "1 00" = false :=
  ⟨claim_C4_thousand_grouping.2.2.2.1 "1 000" (by decide),
    claim_C4_thousand_grouping.2.1 Common_Simple_Whole
      (by simp [defaultPatternList, NumberPatterns.default])⟩

/-- C5: `get_culture_pattern` returns the first registered group whose culture
list contains the requested culture — no merging, earlier groups win — and
returns `none` exactly when no registered group lists the culture. -/
theorem claim_C5_get_culture_pattern_first (np : NumberPatterns)
    (culture : Culture) :
    (∀ g, np.get_culture_pattern culture = some g →
        culture ∈ g.get_cultures ∧
        ∃ i, ∃ hi : i < np.culture_pattern.length,
          np.culture_pattern.get ⟨i, hi⟩ = g ∧
          ∀ j, ∀ hj : j < i, culture ∉
            (np.culture_pattern.get ⟨j, Nat.lt_trans hj hi⟩).get_cultures)
    ∧ (np.get_culture_pattern culture = none ↔
        ∀ g ∈ np.culture_pattern, culture ∉ g.get_cultures) := by
  have hspec := find?_first_spec
    (fun c : CulturePattern => c.get_cultures.any fun sub => sub == culture)
    np.culture_pattern
  constructor
  · intro g hg
    obtain ⟨hpg, i, hi, hget, hbefore⟩ := hspec.1 g hg
    refine ⟨any_beq_iff_mem.mp hpg, i, hi, hget, ?_⟩
    intro j hj hmem
    have ht := any_beq_iff_mem.mpr hmem
    rw [hbefore j hj] at ht
    cases ht
  · rw [show np.get_culture_pattern culture = np.culture_pattern.find?
        (fun c : CulturePattern =>
          c.get_cultures.any fun sub => sub == culture) from rfl]
    rw [hspec.2]
    constructor
    · intro h g hgmem hmem
      have ht := any_beq_iff_mem.mpr hmem
      rw [h g hgmem] at ht
      cases ht
    · intro h g hgmem
      cases hany : (g.get_cultures.any fun sub => sub == culture)
      · rfl
      · exact absurd (any_beq_iff_mem.mp hany) (h g hgmem)

/-- Witness for C5 at the default registry and the French culture. -/
theorem claim_C5_witness :
    NumberPatterns.default.get_culture_pattern Culture.French =
        some frCulturePattern ∧
      Culture.French ∈ frCulturePattern.get_cultures :=
  ⟨rfl, ((claim_C5_get_culture_pattern_first NumberPatterns.default
    Culture.French).1 frCulturePattern rfl).1⟩

/-- C6: every pattern of the default registry is anchored — its stored regex
prefix is "^" and suffix is "$" — and `is_match` accepts a string only when
the entire input belongs to the language of the content regex, never when a
match exists only on a proper substring. -/
theorem claim_C6_anchored :
    ∀ p ∈ defaultPatternList,
      (p.regex.pre = "^" ∧ p.regex.suffix = "$") ∧
        ∀ s : String, p.regex.is_match s = true →
          Matches p.regex.content s.data := by
  intro p hp
  refine ⟨?_, fun s h => (rmatch_iff_matches s.data p.regex.content).mp h⟩
  have hall : defaultPatternList.all
      (fun q => q.regex.pre == "^" && q.regex.suffix == "$") = true := by
    decide
  have hq := List.all_eq_true.mp hall p hp
  rw [Bool.and_eq_true] at hq
  exact ⟨eq_of_beq hq.1, eq_of_beq hq.2⟩

/-- Witness for C6 at the common pattern and the input "42". -/
theorem claim_C6_witness :
    (Common_Simple_Whole.regex.pre = "^" ∧
        Common_Simple_Whole.regex.suffix = "$") ∧
      Matches Common_Simple_Whole.regex.content (String.data "42") := by
  have hmem : Common_Simple_Whole ∈ defaultPatternList := by
    simp [defaultPatternList, NumberPatterns.default]
  have h := claim_C6_anchored Common_Simple_Whole hmem
  exact ⟨h.1, h.2 "42" (by decide)⟩

/-- C7: the default registry holds exactly one common pattern (the WHOLE
pattern Common_Simple_Whole), no math patterns, and exactly the three culture
groups "fr", "en", "it" for French, English and Italian, each with four
patterns; lookup by each built-in culture returns the group with the expected
short-code name. -/
theorem claim_C7_default_registry :
    NumberPatterns.default.common_pattern.length = 1 ∧
    NumberPatterns.default.common_pattern.map ParsingPattern.name =
      ["Common_Simple_Whole"] ∧
    NumberPatterns.default.common_pattern.map ParsingPattern.get_number_type =
      [NumberType.WHOLE] ∧
    NumberPatterns.default.math_pattern = [] ∧
    NumberPatterns.default.culture_pattern.map CulturePattern.get_name =
      ["fr", "en", "it"] ∧
    NumberPatterns.default.culture_pattern.map CulturePattern.get_cultures =
      [[Culture.French], [Culture.English], [Culture.Italian]] ∧
    NumberPatterns.default.culture_pattern.map
      (fun g => g.get_patterns.length) = [4, 4, 4] ∧
    (NumberPatterns.default.get_culture_pattern Culture.French).map
      CulturePattern.get_name = some "fr" ∧
    (NumberPatterns.default.get_culture_pattern Culture.English).map
      CulturePattern.get_name = some "en" ∧
    (NumberPatterns.default.get_culture_pattern Culture.Italian).map
      CulturePattern.get_name = some "it" :=
  ⟨rfl, rfl, rfl, rfl, rfl, rfl, rfl, rfl, rfl, rfl⟩

/-- C8: the three built-in culture settings pair the separators as English
(comma, dot), French (space, comma), Italian (dot, comma), and the
From-Culture conversion returns exactly these values. -/
theorem claim_C8_builtin_settings :
    (NumberCultureSettings.english_culture.thousand_separator = "," ∧
      NumberCultureSettings.english_culture.decimal_separator = "." ∧
      NumberCultureSettings.english_culture.to_thousand_separator =
        some Separator.COMMA ∧
      NumberCultureSettings.english_culture.to_decimal_separator =
        some Separator.DOT) ∧
    (NumberCultureSettings.french_culture.thousand_separator = " " ∧
      NumberCultureSettings.french_culture.decimal_separator = "," ∧
      NumberCultureSettings.french_culture.to_thousand_separator =
        some Separator.SPACE ∧
      NumberCultureSettings.french_culture.to_decimal_separator =
        some Separator.COMMA) ∧
    (NumberCultureSettings.italian_culture.thousand_separator = "." ∧
      NumberCultureSettings.italian_culture.decimal_separator = "," ∧
      NumberCultureSettings.italian_culture.to_thousand_separator =
        some Separator.DOT ∧
      NumberCultureSettings.italian_culture.to_decimal_separator =
        some Separator.COMMA) ∧
    (NumberCultureSettings.from_culture Culture.English =
        NumberCultureSettings.english_culture ∧
      NumberCultureSettings.from_culture Culture.French =
        NumberCultureSettings.french_culture ∧
      NumberCultureSettings.from_culture Culture.Italian =
        NumberCultureSettings.italian_culture) :=
  ⟨⟨rfl, rfl, rfl, rfl⟩, ⟨rfl, rfl, rfl, rfl⟩, ⟨rfl, rfl, rfl, rfl⟩,
    ⟨rfl, rfl, rfl⟩⟩

/-- C9: the character class written `[\\,]` in the built-in regexes contains
the backslash as well as the comma, so "1\2" matches FR_Decimal_Simple and
IT_Decimal_Simple and "1\000" matches EN_Thousand_Separator. -/
theorem claim_C9_backslash_class :
    backslashOrComma '\\' = true ∧ backslashOrComma ',' = true ∧
    FR_Decimal_Simple.regex.is_match "1\\2" = true ∧
    IT_Decimal_Simple.regex.is_match "1\\2" = true ∧
    EN_Thousand_Separator.regex.is_match "1\\000" = true := by
  decide

theorem try_from_toOption_isSome (s : String) :
    (Separator.try_from s).toOption.isSome = true ↔
      (s = "," ∨ s = "." ∨ s = " ") := by
  unfold Separator.try_from
  by_cases h1 : s = ","
  · simp [h1, Except.toOption]
  · by_cases h2 : s = "."
    · simp [h1, h2, Except.toOption]
    · by_cases h3 : s = " "
      · simp [h1, h2, h3, Except.toOption]
      · simp [h1, h2, h3, Except.toOption]

/-- C10: `new` stores its arguments without validation; the accessors
`to_thousand_separator` and `to_decimal_separator` return without panicking
(i.e. yield `some`) exactly when the stored string is one of ",", ".", " ";
for settings built from any other string, such as `new ";" ";"`, the unwrap
panics (embedded as `none`), while for the three built-in settings both
accessors always succeed. -/
theorem claim_C10_new_no_validation :
    (∀ ts ds : String,
        (NumberCultureSettings.new ts ds).thousand_separator = ts ∧
        (NumberCultureSettings.new ts ds).decimal_separator = ds) ∧
    (∀ cs : NumberCultureSettings,
        cs.to_thousand_separator.isSome = true ↔
          (cs.thousand_separator = "," ∨ cs.thousand_separator = "." ∨
            cs.thousand_separator = " ")) ∧
    (∀ cs : NumberCultureSettings,
        cs.to_decimal_separator.isSome = true ↔
          (cs.decimal_separator = "," ∨ cs.decimal_separator = "." ∨
            cs.decimal_separator = " ")) ∧
    ((NumberCultureSettings.new ";" ";").to_thousand_separator = none ∧
      (NumberCultureSettings.new ";" ";").to_decimal_separator = none) ∧
    (NumberCultureSettings.english_culture.to_thousand_separator.isSome =
        true ∧
      NumberCultureSettings.english_culture.to_decimal_separator.isSome =
        true ∧
      NumberCultureSettings.french_culture.to_thousand_separator.isSome =
        true ∧
      NumberCultureSettings.french_culture.to_decimal_separator.isSome =
        true ∧
      NumberCultureSettings.italian_culture.to_thousand_separator.isSome =
        true ∧
      NumberCultureSettings.italian_culture.to_decimal_separator.isSome =
        true) :=
  ⟨fun _ _ => ⟨rfl, rfl⟩,
    fun cs => try_from_toOption_isSome cs.thousand_separator,
    fun cs => try_from_toOption_isSome cs.decimal_separator,
    ⟨rfl, rfl⟩, ⟨rfl, rfl, rfl, rfl, rfl, rfl⟩⟩

/-- Witness for C10 at the concrete settings `new "," "."`. -/
theorem claim_C10_witness :
    (NumberCultureSettings.new "," ".").to_thousand_separator.isSome = true :=
  (claim_C10_new_no_validation.2.1 (NumberCultureSettings.new "," ".")).mpr
    (Or.inl rfl)
